import Mathlib

/-!
Shallow embedding of the borrowing/inventory core of the library
management system (Express + Drizzle/PostgreSQL source).

Tables are modelled as Lean lists, SQL statements as pure list
transformations, and each HTTP handler as a function from a database
state (plus request data) to a new state and a response.  Timestamps
are abstract Nat ticks supplied by the caller; bcrypt hashing and
verification are opaque function parameters, as the specification
treats them.  Fields of the source schema that no claim touches
(user timestamps, profile image URLs on joins, session rows) are kept
only where a modelled operation reads or writes them.

Sources embedded here:
  src/shared/schema.ts (and the full schema file) - tables and the
    Zod insert schemas (field sets of validated payloads);
  src/unnamed/part_001 - DatabaseStorage (createBook, updateBook,
    deleteBook, getBooks, createBorrowing, updateBorrowingStatus,
    createActivityLog, createLocalUser, getUserByUsername, upsertUser,
    updateUserRole, deleteUser, createAnnouncement, deleteNotification);
  src/server/routes.ts - the HTTP handlers;
  src/server/localAuth.ts - authenticateLocalUser, createLocalUser.
-/

namespace LibMS

/-- Role enum of the users table (user_role: admin, user). -/
inductive Role where
  | admin
  | user
deriving DecidableEq, Repr

/-- Borrowing status enum (borrowing_status: active, returned, overdue). -/
inductive BorrowStatus where
  | active
  | returned
  | overdue
deriving DecidableEq, Repr

/-- Outcome of one HTTP handler: a success status with a body, or an
error status with the message string of routes.ts. -/
inductive RouteResult (α : Type) where
  | ok (status : Nat) (body : α)
  | err (status : Nat) (message : String)
deriving DecidableEq, Repr

/-- Row of the books table (schema.ts).  Quantities are Int because the
column is a plain integer with no check constraint; createdAt and
updatedAt are abstract ticks (createdAt drives the getBooks ordering). -/
structure Book where
  id : Nat
  title : String := ""
  author : String := ""
  isbn : String := ""
  genre : String := ""
  quantity : Int := 1
  availableQuantity : Int := 1
  description : Option String := none
  createdAt : Nat := 0
  updatedAt : Nat := 0
deriving DecidableEq, Repr

/-- Row of the users table (schema.ts).  The created/updated timestamps
are elided: no modelled operation reads them. -/
structure UserRec where
  id : String
  email : Option String := none
  firstName : Option String := none
  lastName : Option String := none
  profileImageUrl : Option String := none
  role : Role := Role.user
  username : Option String := none
  hashedPassword : Option String := none
deriving DecidableEq, Repr

/-- Row of the borrowings table (schema.ts). -/
structure Borrowing where
  id : Nat
  userId : String
  bookId : Nat
  borrowDate : Nat := 0
  dueDate : Nat := 0
  returnDate : Option Nat := none
  status : BorrowStatus := BorrowStatus.active
  createdAt : Nat := 0
  updatedAt : Nat := 0
deriving DecidableEq, Repr

/-- Row of the activity_logs table (schema.ts). -/
structure ActivityLog where
  id : Nat
  userId : String
  action : String
  details : String
  entityType : Option String := none
  entityId : Option String := none
deriving DecidableEq, Repr

/-- Row of the notifications table (full schema file). -/
structure NotificationRec where
  id : Nat
  title : String
  content : String
  type : String := "announcement"
  createdById : String
  userId : Option String := none
  createdAt : Nat := 0
deriving DecidableEq, Repr

/-- The database state: one list per table plus the serial counters the
database would keep for auto-increment primary keys. -/
structure DB where
  users : List UserRec := []
  books : List Book := []
  borrowings : List Borrowing := []
  activityLogs : List ActivityLog := []
  notifications : List NotificationRec := []
  nextBookId : Nat := 1
  nextBorrowingId : Nat := 1
  nextLogId : Nat := 1
  nextNotificationId : Nat := 1
deriving DecidableEq, Repr

/-- Payload accepted by insertBookSchema (schema.ts lines 122 to 127):
title, author, isbn, genre required, quantity and description optional;
id, createdAt, updatedAt and availableQuantity are omitted by the schema
and so can never arrive at the storage layer. -/
structure InsertBook where
  title : String := ""
  author : String := ""
  isbn : String := ""
  genre : String := ""
  quantity : Option Int := none
  description : Option String := none
deriving DecidableEq, Repr

/-- Payload accepted by insertBookSchema.partial() in PUT /api/books/:id:
every schema field becomes optional.  The only fields in the schema are
title, author, isbn, genre, quantity, description; the isbn IS part of
the partial schema.  For description, none means the field was absent
and some d means it was supplied with value d (d itself optional since
the column is nullable). -/
structure UpdateBook where
  title : Option String := none
  author : Option String := none
  isbn : Option String := none
  genre : Option String := none
  quantity : Option Int := none
  description : Option (Option String) := none
deriving DecidableEq, Repr

/-- Payload of storage.createBorrowing after the route fills it in:
userId of the caller, bookId, dueDate. -/
structure InsertBorrowing where
  userId : String
  bookId : Nat
  dueDate : Nat
deriving DecidableEq, Repr

/-- Administrator configuration from environment variables
(ADMIN_USERNAME, ADMIN_PASSWORD, ADMIN_EMAIL), each possibly unset. -/
structure AdminEnv where
  adminUsername : Option String := none
  adminPassword : Option String := none
  adminEmail : Option String := none

/-- The LocalUser value authenticateLocalUser returns (localAuth.ts):
password is always the empty string on return. -/
structure LocalUser where
  id : String
  username : String
  password : String := ""
  role : Role
  email : String
  firstName : String
  lastName : String
deriving DecidableEq, Repr

/-! Storage layer (src/unnamed/part_001, DatabaseStorage). -/

/-- SQL UPDATE books SET ... WHERE id = i, as a list map. -/
def updateWhereBook (l : List Book) (i : Nat) (f : Book → Book) : List Book :=
  l.map fun bk => if bk.id = i then f bk else bk

/-- DatabaseStorage.getBookById: select from books where id = given. -/
def getBookById (db : DB) (id : Nat) : Option Book :=
  db.books.find? fun bk => bk.id == id

/-- DatabaseStorage.getBookByIsbn: select from books where isbn = given. -/
def getBookByIsbn (db : DB) (isbn : String) : Option Book :=
  db.books.find? fun bk => bk.isbn == isbn

/-- DatabaseStorage.getUser: select from users where id = given. -/
def getUser (db : DB) (id : String) : Option UserRec :=
  db.users.find? fun u => u.id == id

/-- DatabaseStorage.getUserByUsername: the argument is lowercased inside
the storage method before the equality comparison. -/
def getUserByUsername (db : DB) (username : String) : Option UserRec :=
  db.users.find? fun u => u.username == some username.toLower

/-- DatabaseStorage.createActivityLog: plain insert into activity_logs. -/
def addLog (db : DB) (userId action details : String)
    (entityType entityId : Option String) : DB :=
  { db with
    activityLogs := db.activityLogs ++
      [{ id := db.nextLogId, userId := userId, action := action,
         details := details, entityType := entityType, entityId := entityId }],
    nextLogId := db.nextLogId + 1 }

/-- DatabaseStorage.createBook (part_001 lines 378 to 410).  When a book
with the same isbn exists, the row is merged: the requested quantity is
added to both quantity and availableQuantity, where the JS expression
book.quantity || 1 turns an absent OR ZERO requested quantity into 1.
Otherwise a fresh row is inserted with availableQuantity = quantity
(both defaulting to 1 when the payload has no quantity). -/
def createBook (db : DB) (b : InsertBook) (now : Nat) : DB × Book :=
  match getBookByIsbn db b.isbn with
  | some existingBook =>
    let addQuantity : Int :=
      match b.quantity with
      | none => 1
      | some q => if q = 0 then 1 else q
    let updatedBook : Book :=
      { existingBook with
        quantity := existingBook.quantity + addQuantity,
        availableQuantity := existingBook.availableQuantity + addQuantity,
        updatedAt := now }
    ({ db with books := updateWhereBook db.books existingBook.id fun _ => updatedBook },
     updatedBook)
  | none =>
    let q : Int := b.quantity.getD 1
    let newBook : Book :=
      { id := db.nextBookId, title := b.title, author := b.author,
        isbn := b.isbn, genre := b.genre, quantity := q,
        availableQuantity := q, description := b.description,
        createdAt := now, updatedAt := now }
    ({ db with books := db.books ++ [newBook], nextBookId := db.nextBookId + 1 },
     newBook)

/-- Application of an UpdateBook payload to a row, mirroring
db.update(books).set({...bookData, updatedAt: new Date()}): absent
fields keep their stored value, present fields overwrite.  The set never
contains id, createdAt or availableQuantity because the partial schema
strips them. -/
def applyBookUpdate (bk : Book) (p : UpdateBook) (now : Nat) : Book :=
  { bk with
    title := p.title.getD bk.title,
    author := p.author.getD bk.author,
    isbn := p.isbn.getD bk.isbn,
    genre := p.genre.getD bk.genre,
    quantity := p.quantity.getD bk.quantity,
    description := p.description.getD bk.description,
    updatedAt := now }

/-- DatabaseStorage.updateBook (part_001 lines 415 to 425): update where
id matches, returning the updated row; none when no row matched (the
returning() array is empty and the route then crashes reading .title). -/
def updateBook (db : DB) (id : Nat) (p : UpdateBook) (now : Nat) :
    DB × Option Book :=
  ({ db with books := updateWhereBook db.books id fun bk => applyBookUpdate bk p now },
   (getBookById db id).map fun bk => applyBookUpdate bk p now)

/-- DatabaseStorage.deleteBook: delete from books where id = given. -/
def deleteBook (db : DB) (id : Nat) : DB :=
  { db with books := db.books.filter fun bk => bk.id != id }

/-- DatabaseStorage.createBorrowing (part_001 lines 523 to 539): insert
the borrowing row (status defaults to active, borrowDate to now), then
decrement availableQuantity of the referenced book by 1. -/
def createBorrowing (db : DB) (ins : InsertBorrowing) (now : Nat) :
    DB × Borrowing :=
  let newBorrowing : Borrowing :=
    { id := db.nextBorrowingId, userId := ins.userId, bookId := ins.bookId,
      borrowDate := now, dueDate := ins.dueDate, returnDate := none,
      status := BorrowStatus.active, createdAt := now, updatedAt := now }
  let db1 : DB :=
    { db with
      borrowings := db.borrowings ++ [newBorrowing],
      nextBorrowingId := db.nextBorrowingId + 1 }
  let db2 : DB :=
    { db1 with books := updateWhereBook db1.books ins.bookId fun bk =>
        { bk with availableQuantity := bk.availableQuantity - 1, updatedAt := now } }
  (db2, newBorrowing)

/-- DatabaseStorage.getBorrowingById: the borrowing row left-joined with
its user and book rows (either join partner may be missing). -/
def getBorrowingById (db : DB) (id : Nat) :
    Option (Borrowing × Option UserRec × Option Book) :=
  (db.borrowings.find? fun br => br.id == id).map fun br =>
    (br, db.users.find? fun u => u.id == br.userId,
     db.books.find? fun bk => bk.id == br.bookId)

/-- DatabaseStorage.updateBorrowingStatus (part_001 lines 545 to 571):
none models the thrown Borrowing-not-found error.  The row state and
returnDate are updated (an absent returnDate argument leaves the stored
column untouched, as drizzle ignores undefined set values), and ONLY
when the new status is returned is availableQuantity incremented: there
is no check that the borrowing was not already returned. -/
def updateBorrowingStatus (db : DB) (id : Nat) (status : BorrowStatus)
    (returnDate : Option Nat) (now : Nat) : DB × Option Borrowing :=
  match db.borrowings.find? (fun br => br.id == id) with
  | none => (db, none)
  | some borrowing =>
    let upd : Borrowing → Borrowing := fun br =>
      { br with
        status := status,
        returnDate := (match returnDate with
          | some d => some d
          | none => br.returnDate),
        updatedAt := now }
    let db1 : DB :=
      { db with borrowings := db.borrowings.map fun br =>
          if br.id = id then upd br else br }
    let db2 : DB :=
      if status = BorrowStatus.returned then
        { db1 with books := updateWhereBook db1.books borrowing.bookId fun bk =>
            { bk with availableQuantity := bk.availableQuantity + 1, updatedAt := now } }
      else db1
    (db2, some (upd borrowing))

/-- DatabaseStorage.upsertUser: insert on conflict (id) do update; the
update set contains the passed profile fields but neither username nor
hashedPassword, so those survive an upsert of an existing row. -/
def upsertUser (db : DB) (id email firstName lastName : String) (role : Role) : DB :=
  match db.users.find? (fun u => u.id == id) with
  | some _ =>
    { db with users := db.users.map fun u =>
        if u.id = id then
          { u with
            email := some email, firstName := some firstName,
            lastName := some lastName, profileImageUrl := none, role := role }
        else u }
  | none =>
    { db with users := db.users ++
        [{ id := id, email := some email, firstName := some firstName,
           lastName := some lastName, profileImageUrl := none, role := role,
           username := none, hashedPassword := none }] }

/-- DatabaseStorage.createLocalUser: id is local_ prefixed to the
lowercased username, username stored lowercased, role defaulting to
user when unspecified (callers always pass one here). -/
def createLocalUserStorage (db : DB) (username hashedPassword email firstName lastName : String)
    (role : Role) : DB × UserRec :=
  let u : UserRec :=
    { id := "local_" ++ username.toLower, email := some email,
      firstName := some firstName, lastName := some lastName,
      profileImageUrl := none, role := role,
      username := some username.toLower, hashedPassword := some hashedPassword }
  ({ db with users := db.users ++ [u] }, u)

/-- DatabaseStorage.updateUserRole: update users set role where id. -/
def updateUserRole (db : DB) (id : String) (role : Role) : DB × Option UserRec :=
  ({ db with users := db.users.map fun u => if u.id = id then { u with role := role } else u },
   (db.users.find? fun u => u.id == id).map fun u => { u with role := role })

/-- DatabaseStorage.deleteUser: delete from users where id = given. -/
def deleteUser (db : DB) (id : String) : DB :=
  { db with users := db.users.filter fun u => u.id != id }

/-- DatabaseStorage.createAnnouncement: plain insert into notifications. -/
def createAnnouncement (db : DB) (title content type createdById : String)
    (userId : Option String) (now : Nat) : DB × NotificationRec :=
  let n : NotificationRec :=
    { id := db.nextNotificationId, title := title, content := content,
      type := type, createdById := createdById, userId := userId, createdAt := now }
  ({ db with
     notifications := db.notifications ++ [n],
     nextNotificationId := db.nextNotificationId + 1 }, n)

/-- DatabaseStorage.deleteNotification: delete where id = given. -/
def deleteNotification (db : DB) (id : Nat) : DB :=
  { db with notifications := db.notifications.filter fun n => n.id != id }

/-! Local authentication (src/server/localAuth.ts). -/

/-- localAuth.createLocalUser: lowercase the username, reject a
duplicate (none models the thrown duplicate-username error), hash the
password with the opaque hash capability, then insert. -/
def createLocalUserAuth (db : DB) (hash : String → String)
    (username password email firstName lastName : String) (role : Role) :
    Option (DB × UserRec) :=
  let uname := username.toLower
  match getUserByUsername db uname with
  | some _ => none
  | none => some (createLocalUserStorage db uname (hash password) email firstName lastName role)

/-- localAuth.authenticateLocalUser (lines 120 to 186).  Missing admin
configuration throws (Except.error).  When the lowercased input equals
the lowercased configured admin username AND the password equals the
configured admin secret, the fixed local_admin record is upserted and
the administrator identity returned.  In EVERY other case, including an
admin username with a wrong password, control falls through to the
credential-store lookup, where the opaque verify capability checks the
supplied password against the stored bcrypt hash. -/
def authenticateLocalUser (env : AdminEnv) (verify : String → String → Bool)
    (db : DB) (username password : String) :
    Except String (DB × Option LocalUser) :=
  let usernameKey := username.toLower
  match env.adminUsername, env.adminPassword with
  | some adminUsername, some adminPassword =>
    if usernameKey = adminUsername.toLower ∧ password = adminPassword then
      let adminEmail := env.adminEmail.getD "admin@library.local"
      let db1 := upsertUser db "local_admin" adminEmail "Quản trị viên" "Hệ thống" Role.admin
      Except.ok (db1, some
        { id := "local_admin", username := adminUsername, password := "",
          role := Role.admin, email := adminEmail,
          firstName := "Quản trị viên", lastName := "Hệ thống" })
    else
      match getUserByUsername db usernameKey with
      | some userRecord =>
        match userRecord.hashedPassword with
        | some h =>
          if verify password h then
            Except.ok (db, some
              { id := userRecord.id, username := userRecord.username.getD "",
                password := "", role := userRecord.role,
                email := userRecord.email.getD "",
                firstName := userRecord.firstName.getD "",
                lastName := userRecord.lastName.getD "" })
          else Except.ok (db, none)
        | none => Except.ok (db, none)
      | none => Except.ok (db, none)
  | _, _ =>
    Except.error "Admin credentials not configured. Please set ADMIN_USERNAME and ADMIN_PASSWORD environment variables."

/-! HTTP handlers (src/server/routes.ts).  The session middleware is
assumed to have resolved callerId; the handlers below start at the
per-route logic.  Response statuses and messages are the literal ones
of routes.ts. -/

/-- Shared admin gate of the admin-only routes: the caller row is
fetched and its role compared; a missing caller row fails the gate. -/
def isAdminUser (db : DB) (userId : String) : Bool :=
  match getUser db userId with
  | some u => u.role == Role.admin
  | none => false

/-- POST /api/auth/login (routes.ts lines 66 to 103). -/
def loginRoute (env : AdminEnv) (verify : String → String → Bool) (db : DB)
    (username password : String) : DB × RouteResult LocalUser :=
  if username = "" ∨ password = "" then
    (db, RouteResult.err 400 "Tên đăng nhập và mật khẩu là bắt buộc")
  else
    match authenticateLocalUser env verify db username password with
    | Except.error msg => (db, RouteResult.err 500 msg)
    | Except.ok (db1, none) =>
      (db1, RouteResult.err 401 "Tên đăng nhập hoặc mật khẩu không đúng")
    | Except.ok (db1, some u) => (db1, RouteResult.ok 200 u)

/-- POST /api/auth/register (routes.ts lines 110 to 159).  Note: the
successful path creates the user and the session and appends NO
activity log entry. -/
def registerRoute (db : DB) (hash : String → String)
    (username password confirmPassword email firstName lastName : String) :
    DB × RouteResult UserRec :=
  if username = "" ∨ password = "" ∨ confirmPassword = "" ∨ email = "" ∨
      firstName = "" ∨ lastName = "" then
    (db, RouteResult.err 400 "Tất cả thông tin là bắt buộc")
  else if password ≠ confirmPassword then
    (db, RouteResult.err 400 "Mật khẩu xác nhận không khớp")
  else if password.length < 3 then
    (db, RouteResult.err 400 "Mật khẩu phải có ít nhất 3 ký tự")
  else
    match createLocalUserAuth db hash username password email firstName lastName Role.user with
    | none => (db, RouteResult.err 400 "Tên đăng nhập đã tồn tại")
    | some (db1, u) => (db1, RouteResult.ok 201 u)

/-- POST /api/books (routes.ts lines 285 to 315): admin gate, Zod
validation (represented by the InsertBook payload type), createBook,
then one book_added activity log entry. -/
def postBook (db : DB) (callerId : String) (payload : InsertBook) (now : Nat) :
    DB × RouteResult Book :=
  if isAdminUser db callerId then
    let r := createBook db payload now
    (addLog r.1 callerId "book_added" ("Added book: " ++ r.2.title)
       (some "book") (some (toString r.2.id)),
     RouteResult.ok 201 r.2)
  else (db, RouteResult.err 403 "Admin access required")

/-- PUT /api/books/:id (routes.ts lines 321 to 351): admin gate, partial
Zod validation, updateBook, then one book_updated log entry.  When no
row matched, reading .title of undefined throws and the handler answers
500 after the (empty) update, without logging. -/
def putBook (db : DB) (callerId : String) (id : Nat) (payload : UpdateBook)
    (now : Nat) : DB × RouteResult Book :=
  if isAdminUser db callerId then
    match updateBook db id payload now with
    | (db1, some book) =>
      (addLog db1 callerId "book_updated" ("Updated book: " ++ book.title)
         (some "book") (some (toString book.id)),
       RouteResult.ok 200 book)
    | (db1, none) => (db1, RouteResult.err 500 "Failed to update book")
  else (db, RouteResult.err 403 "Admin access required")

/-- DELETE /api/books/:id (routes.ts lines 358 to 390): admin gate,
existence check, unconditional delete, one book_deleted log entry. -/
def deleteBookRoute (db : DB) (callerId : String) (id : Nat) :
    DB × RouteResult Unit :=
  if isAdminUser db callerId then
    match getBookById db id with
    | none => (db, RouteResult.err 404 "Book not found")
    | some book =>
      (addLog (deleteBook db id) callerId "book_deleted"
         ("Deleted book: " ++ book.title) (some "book") (some (toString book.id)),
       RouteResult.ok 204 ())
  else (db, RouteResult.err 403 "Admin access required")

/-- POST /api/borrowings (routes.ts lines 425 to 460): load the book
(404 when absent), reject when availableQuantity is not positive (400,
Book is not available), then insert the borrowing, decrement the
availability and append one book_borrowed log entry. -/
def postBorrowing (db : DB) (callerId : String) (bookId : Nat)
    (dueDate now : Nat) : DB × RouteResult Borrowing :=
  match getBookById db bookId with
  | none => (db, RouteResult.err 404 "Book not found")
  | some book =>
    if book.availableQuantity ≤ 0 then
      (db, RouteResult.err 400 "Book is not available")
    else
      let r := createBorrowing db
        { userId := callerId, bookId := bookId, dueDate := dueDate } now
      (addLog r.1 callerId "book_borrowed" ("Borrowed book: " ++ book.title)
         (some "borrowing") (some (toString r.2.id)),
       RouteResult.ok 201 r.2)

/-- PUT /api/borrowings/:id/return (routes.ts lines 467 to 500): load
the joined borrowing (404 when absent), allow only the borrower or an
admin, then updateBorrowingStatus to returned (incrementing the book
availability) and append one book_returned log entry.  The log detail
reads the joined book title; when the book row is gone that read throws
AFTER the mutation, yielding 500 with no log entry.  NOTE: the handler
never inspects the current status, so an already returned borrowing is
processed again. -/
def putReturn (db : DB) (callerId : String) (id : Nat) (now : Nat) :
    DB × RouteResult Borrowing :=
  match getBorrowingById db id with
  | none => (db, RouteResult.err 404 "Borrowing not found")
  | some (borrowing, _joinedUser, joinedBook) =>
    if borrowing.userId ≠ callerId ∧ ¬ isAdminUser db callerId then
      (db, RouteResult.err 403 "Not authorized to return this book")
    else
      match updateBorrowingStatus db id BorrowStatus.returned (some now) now with
      | (db1, some updated) =>
        match joinedBook with
        | some book =>
          (addLog db1 callerId "book_returned" ("Returned book: " ++ book.title)
             (some "borrowing") (some (toString borrowing.id)),
           RouteResult.ok 200 updated)
        | none => (db1, RouteResult.err 500 "Failed to return book")
      | (db1, none) => (db1, RouteResult.err 500 "Failed to return book")

/-- POST /api/auth/create-admin (routes.ts lines 540 to 594): admin
gate, validation, createLocalUser with role admin, one admin_created
log entry. -/
def createAdminRoute (db : DB) (hash : String → String) (callerId : String)
    (username password : String) (email firstName lastName : Option String) :
    DB × RouteResult UserRec :=
  if isAdminUser db callerId then
    if username = "" ∨ password = "" then
      (db, RouteResult.err 400 "Username and password are required")
    else if password.length < 3 then
      (db, RouteResult.err 400 "Password must be at least 3 characters")
    else
      match createLocalUserAuth db hash username password
        (email.getD (username ++ "@admin.local"))
        (firstName.getD "Admin") (lastName.getD "User") Role.admin with
      | none => (db, RouteResult.err 400 "Username already exists")
      | some (db1, adminUser) =>
        (addLog db1 callerId "admin_created"
           ("Created admin account: " ++ adminUser.username.getD "")
           (some "user") (some adminUser.id),
         RouteResult.ok 201 adminUser)
  else (db, RouteResult.err 403 "Admin access required")

/-- PUT /api/users/:targetUserId/role (routes.ts lines 632 to 663):
admin gate, role string validation, updateUserRole, one
user_role_updated log entry.  A missing target makes the handler read
.email of undefined: 500 after the empty update, no log. -/
def putUserRole (db : DB) (callerId targetUserId : String) (role : String) :
    DB × RouteResult UserRec :=
  if isAdminUser db callerId then
    if role ≠ "admin" ∧ role ≠ "user" then
      (db, RouteResult.err 400 "Invalid role")
    else
      let r : Role := if role = "admin" then Role.admin else Role.user
      match updateUserRole db targetUserId r with
      | (db1, some updatedUser) =>
        (addLog db1 callerId "user_role_updated"
           ("Updated user role to " ++ role ++ " for " ++ (updatedUser.email.getD "null"))
           (some "user") (some targetUserId),
         RouteResult.ok 200 updatedUser)
      | (db1, none) => (db1, RouteResult.err 500 "Failed to update user role")
  else (db, RouteResult.err 403 "Admin access required")

/-- DELETE /api/users/:targetUserId (routes.ts lines 786 to 829): admin
gate, self-deletion guard (400), target existence (404), admin-target
guard (403), then delete plus one user_deleted log entry. -/
def deleteUserRoute (db : DB) (callerId targetUserId : String) :
    DB × RouteResult String :=
  if isAdminUser db callerId then
    if targetUserId = callerId then
      (db, RouteResult.err 400 "Cannot delete your own account")
    else
      match getUser db targetUserId with
      | none => (db, RouteResult.err 404 "User not found")
      | some targetUser =>
        if targetUser.role = Role.admin then
          (db, RouteResult.err 403 "Cannot delete admin accounts")
        else
          (addLog (deleteUser db targetUserId) callerId "user_deleted"
             ("Deleted user account: " ++ (targetUser.email.getD "null"))
             (some "user") (some targetUserId),
           RouteResult.ok 200 "User deleted successfully")
  else (db, RouteResult.err 403 "Admin access required")

/-- POST /api/notifications/announcement (routes.ts lines 690 to 726):
admin gate, createAnnouncement with userId null (broadcast), one
announcement_created log entry. -/
def postAnnouncement (db : DB) (callerId : String) (title content : String)
    (now : Nat) : DB × RouteResult NotificationRec :=
  if isAdminUser db callerId then
    let r := createAnnouncement db title content "announcement" callerId none now
    (addLog r.1 callerId "announcement_created"
       ("Created announcement: " ++ r.2.title)
       (some "notification") (some (toString r.2.id)),
     RouteResult.ok 201 r.2)
  else (db, RouteResult.err 403 "Admin access required")

/-- DELETE /api/notifications/:id (routes.ts lines 752 to 777): admin
gate, unconditional delete (succeeds even for a missing id), one
notification_deleted log entry. -/
def deleteNotificationRoute (db : DB) (callerId : String) (notificationId : Nat) :
    DB × RouteResult String :=
  if isAdminUser db callerId then
    (addLog (deleteNotification db notificationId) callerId "notification_deleted"
       ("Deleted notification with ID: " ++ toString notificationId)
       (some "notification") (some (toString notificationId)),
     RouteResult.ok 200 "Notification deleted successfully")
  else (db, RouteResult.err 403 "Admin access required")

/-! Catalog listing (DatabaseStorage.getBooks, part_001 lines 262 to 356). -/

/-- Boolean test that the second char list is a prefix of the first. -/
def charsStartWith : List Char → List Char → Bool
  | _, [] => true
  | [], _ :: _ => false
  | a :: as, b :: bs => a == b && charsStartWith as bs

/-- Boolean test that the second char list occurs inside the first. -/
def charsContain : List Char → List Char → Bool
  | [], pat => pat.isEmpty
  | c :: rest, pat => charsStartWith (c :: rest) pat || charsContain rest pat

/-- SQL LIKE with the pattern wrapped in percent wildcards, i.e.
substring containment (patterns used by the source contain no further
wildcard characters). -/
def likeMatch (field pat : String) : Bool :=
  charsContain field.data pat.data

/-- Query parameters of getBooks; none models an absent parameter. -/
structure GetBooksParams where
  search : Option String := none
  searchField : Option String := none
  genre : Option String := none
  status : Option String := none
  page : Option Nat := none
  limit : Option Nat := none
deriving DecidableEq, Repr

/-- BookWithAvailability of schema.ts: the book row annotated with the
derived isAvailable and totalBorrowed fields. -/
structure BookWithAvailability extends Book where
  isAvailable : Bool
  totalBorrowed : Int
deriving DecidableEq, Repr

/-- The search part of the WHERE clause; an absent or empty search term
(falsy in JS) adds no condition.  searchField id matches the isbn. -/
def bookMatchesSearch (p : GetBooksParams) (bk : Book) : Bool :=
  match p.search with
  | none => true
  | some s =>
    if s = "" then true
    else
      match p.searchField with
      | some "id" => likeMatch bk.isbn s
      | some "title" => likeMatch bk.title s
      | some "author" => likeMatch bk.author s
      | some "genre" => likeMatch bk.genre s
      | _ => likeMatch bk.title s || likeMatch bk.author s ||
             likeMatch bk.isbn s || likeMatch bk.genre s

/-- The genre part of the WHERE clause; absent, empty or the literal
string all adds no condition. -/
def bookMatchesGenre (p : GetBooksParams) (bk : Book) : Bool :=
  match p.genre with
  | none => true
  | some g => if g = "" ∨ g = "all" then true else bk.genre == g

/-- Conjunction of the WHERE conditions of getBooks. -/
def bookMatchesWhere (p : GetBooksParams) (bk : Book) : Bool :=
  bookMatchesSearch p bk && bookMatchesGenre p bk

/-- Insertion step for sorting by createdAt descending (ORDER BY
created_at DESC; the concrete states used below have distinct
createdAt ticks, so tie order is immaterial). -/
def insertByCreatedAtDesc (bk : Book) : List Book → List Book
  | [] => [bk]
  | x :: xs =>
    if x.createdAt ≤ bk.createdAt then bk :: x :: xs
    else x :: insertByCreatedAtDesc bk xs

/-- Sort by createdAt descending. -/
def sortByCreatedAtDesc (l : List Book) : List Book :=
  l.foldr insertByCreatedAtDesc []

/-- Annotation step of getBooks: isAvailable = availableQuantity > 0,
totalBorrowed = quantity - availableQuantity. -/
def withAvailability (bk : Book) : BookWithAvailability :=
  { bk with
    isAvailable := decide (0 < bk.availableQuantity),
    totalBorrowed := bk.quantity - bk.availableQuantity }

/-- The post-query status filter of getBooks: available keeps rows with
isAvailable, borrowed keeps the rest, anything else (or absent, empty,
all) keeps everything. -/
def statusFilter (status : Option String) (l : List BookWithAvailability) :
    List BookWithAvailability :=
  match status with
  | none => l
  | some st =>
    if st = "" ∨ st = "all" then l
    else l.filter fun b =>
      if st = "available" then b.isAvailable
      else if st = "borrowed" then !b.isAvailable
      else true

/-- DatabaseStorage.getBooks: WHERE conditions, ORDER BY createdAt
descending, SQL LIMIT and OFFSET from page and limit (defaults 1 and
10), annotation, and ONLY THEN the status filter, exactly as the source
applies it to the already paginated rows.  The second component is the
total count over the WHERE clause (the status filter never affects it). -/
def getBooks (db : DB) (p : GetBooksParams) :
    List BookWithAvailability × Nat :=
  let page := p.page.getD 1
  let limit := p.limit.getD 10
  let offset := (page - 1) * limit
  let matching := db.books.filter (bookMatchesWhere p)
  let pageRows := ((sortByCreatedAtDesc matching).drop offset).take limit
  let annotated := pageRows.map withAvailability
  (statusFilter p.status annotated, matching.length)

/-- Modelled from the spec wording only, as the contrast for claim C7:
the same listing with the status filter applied BEFORE the SQL LIMIT
and OFFSET.  This is not what the source does. -/
def getBooksStatusFirst (db : DB) (p : GetBooksParams) :
    List BookWithAvailability × Nat :=
  let page := p.page.getD 1
  let limit := p.limit.getD 10
  let offset := (page - 1) * limit
  let matching := db.books.filter (bookMatchesWhere p)
  let annotated := (sortByCreatedAtDesc matching).map withAvailability
  let filtered := statusFilter p.status annotated
  ((filtered.drop offset).take limit, matching.length)

/-! Invariant machinery for claim C1. -/

/-- The per-book inventory invariant of the specification:
0 <= availableQuantity <= quantity. -/
def bookInv (bk : Book) : Prop :=
  0 ≤ bk.availableQuantity ∧ bk.availableQuantity ≤ bk.quantity

instance bookInvDecidable (bk : Book) : Decidable (bookInv bk) :=
  inferInstanceAs (Decidable (_ ∧ _))

/-- The invariant over every book of the catalog. -/
def dbBookInv (db : DB) : Prop := ∀ bk ∈ db.books, bookInv bk

instance dbBookInvDecidable (db : DB) : Decidable (dbBookInv db) :=
  inferInstanceAs (Decidable (∀ bk ∈ db.books, bookInv bk))

/-- The six operations quantified over by claim C1, at the level the
system exposes them: the five HTTP handlers plus the storage-level
overdue transition (which no route of the source triggers). -/
inductive CatalogOp where
  | addBookOp (callerId : String) (payload : InsertBook) (now : Nat)
  | updateBookOp (callerId : String) (id : Nat) (payload : UpdateBook) (now : Nat)
  | deleteBookOp (callerId : String) (id : Nat)
  | createBorrowingOp (callerId : String) (bookId dueDate now : Nat)
  | returnBorrowingOp (callerId : String) (id now : Nat)
  | markOverdueOp (id : Nat) (returnDate : Option Nat) (now : Nat)

/-- State transition of one operation (response discarded). -/
def applyOp (db : DB) : CatalogOp → DB
  | CatalogOp.addBookOp c p now => (postBook db c p now).1
  | CatalogOp.updateBookOp c i p now => (putBook db c i p now).1
  | CatalogOp.deleteBookOp c i => (deleteBookRoute db c i).1
  | CatalogOp.createBorrowingOp c b d now => (postBorrowing db c b d now).1
  | CatalogOp.returnBorrowingOp c i now => (putReturn db c i now).1
  | CatalogOp.markOverdueOp i rd now =>
      (updateBorrowingStatus db i BorrowStatus.overdue rd now).1

/-- Side conditions under which the respective operation preserves the
invariant (the amended form of claim C1): a nonnegative requested
quantity for addBook; updateBook not setting quantity below the current
availableQuantity of the target; returnBorrowing hitting a borrowing
whose book still has a copy out numerically.  The remaining operations
need no condition. -/
def opSafe (db : DB) : CatalogOp → Prop
  | CatalogOp.addBookOp _ p _ => 0 ≤ p.quantity.getD 1
  | CatalogOp.updateBookOp _ i p _ =>
      ∀ bk ∈ db.books, bk.id = i → bk.availableQuantity ≤ p.quantity.getD bk.quantity
  | CatalogOp.deleteBookOp _ _ => True
  | CatalogOp.createBorrowingOp _ _ _ _ => True
  | CatalogOp.returnBorrowingOp _ i _ =>
      ∀ br ∈ db.borrowings, br.id = i →
        ∀ bk ∈ db.books, bk.id = br.bookId → bk.availableQuantity < bk.quantity
  | CatalogOp.markOverdueOp _ _ _ => True

/-- One activity log entry appended, the earlier log untouched. -/
def appendsOneLog (db db2 : DB) : Prop :=
  ∃ e, db2.activityLogs = db.activityLogs ++ [e]

/-- Status projection of a route result. -/
def RouteResult.statusOf {α : Type} : RouteResult α → Nat
  | RouteResult.ok s _ => s
  | RouteResult.err s _ => s

/-- Success test of a route result. -/
def RouteResult.isOk {α : Type} : RouteResult α → Bool
  | RouteResult.ok _ _ => true
  | RouteResult.err _ _ => false

/-! Concrete states used by counterexamples and witnesses. -/

/-- An administrator account present in the users table. -/
def adminU : UserRec := { id := "admin1", role := Role.admin }

/-- A regular account. -/
def aliceU : UserRec := { id := "alice" }

/-- State for the C1 counterexample and the C6 counterexample: one
admin, one book with quantity 3 and availableQuantity 3. -/
def c1db : DB :=
  { users := [adminU],
    books := [{ id := 1, title := "T1", isbn := "I1", genre := "g",
                quantity := 3, availableQuantity := 3 }],
    nextBookId := 2 }

/-- The C1 counterexample operation: an admin edit lowering quantity to
1 while availableQuantity stays 3. -/
def c1op : CatalogOp := CatalogOp.updateBookOp "admin1" 1 { quantity := some 1 } 5

/-- State for the C1 witness: an active borrowing by alice of a book
with one copy out. -/
def c1wdb : DB :=
  { users := [adminU, aliceU],
    books := [{ id := 1, title := "T1", isbn := "I1", genre := "g",
                quantity := 3, availableQuantity := 2 }],
    borrowings := [{ id := 1, userId := "alice", bookId := 1, dueDate := 9 }],
    nextBookId := 2, nextBorrowingId := 2 }

/-- State for C2: the borrowing is ALREADY returned and all three
copies are back on the shelf. -/
def c2db : DB :=
  { users := [aliceU],
    books := [{ id := 1, title := "T1", isbn := "I1", genre := "g",
                quantity := 3, availableQuantity := 3 }],
    borrowings := [{ id := 1, userId := "alice", bookId := 1, dueDate := 5,
                     returnDate := some 6, status := BorrowStatus.returned }],
    nextBookId := 2, nextBorrowingId := 2 }

/-- State for the C3 counterexample and witness: an admin and an empty
catalog. -/
def c3db : DB := { users := [adminU] }

/-- First addBook payload of the C3 counterexample: quantity 1. -/
def c3p1 : InsertBook := { title := "T", author := "A", isbn := "X", genre := "g", quantity := some 1 }

/-- Second addBook payload of the C3 counterexample: quantity 0, which
the merge branch turns into 1 via the JS expression quantity || 1. -/
def c3p2 : InsertBook := { title := "T", author := "A", isbn := "X", genre := "g", quantity := some 0 }

/-- Payload of the C3 witness second call: quantity 2 (nonzero). -/
def c3pw : InsertBook :=
  { title := "T", author := "A", isbn := "X", genre := "g", quantity := some 2 }

/-- Book used by the C4 and C5 witnesses. -/
def c4bk : Book :=
  { id := 1, title := "T1", isbn := "I1", genre := "g",
    quantity := 2, availableQuantity := 2 }

/-- State for the C4 witness. -/
def c4wdb : DB :=
  { users := [aliceU], books := [c4bk], nextBookId := 2, nextBorrowingId := 1 }

/-- State for the C5 witness: one book with zero availability. -/
def c5wdb : DB :=
  { users := [aliceU],
    books := [{ id := 1, title := "T1", isbn := "I1", genre := "g",
                quantity := 2, availableQuantity := 0 }],
    nextBookId := 2 }

/-- State for C7: three books, the newest (id 3) and the oldest (id 1)
available, the middle one (id 2) fully borrowed. -/
def c7db : DB :=
  { books := [
      { id := 1, title := "A", isbn := "A", genre := "g",
        quantity := 1, availableQuantity := 1, createdAt := 1 },
      { id := 2, title := "B", isbn := "B", genre := "g",
        quantity := 1, availableQuantity := 0, createdAt := 2 },
      { id := 3, title := "C", isbn := "C", genre := "g",
        quantity := 2, availableQuantity := 2, createdAt := 3 }],
    nextBookId := 4 }

/-- Query of C7: status available, page 1, limit 2. -/
def c7params : GetBooksParams :=
  { status := some "available", page := some 1, limit := some 2 }

/-- State for the C8 witness: an admin and a regular user. -/
def c8db : DB := { users := [adminU, aliceU] }

/-- A stored local account whose username is the lowercased admin
username; used by C10. -/
def bobAsAdminName : UserRec :=
  { id := "local_admin2", email := some "b@x", firstName := some "B",
    lastName := some "C", role := Role.user, username := some "admin",
    hashedPassword := some "hashpw" }

/-- State for the C10 witness. -/
def c10db : DB := { users := [bobAsAdminName] }

/-- Environment for the C10 witness. -/
def c10env : AdminEnv :=
  { adminUsername := some "Admin", adminPassword := some "secret" }

/-- Opaque verify capability for the C10 witness: a password verifies
against the stored hash when they are equal as strings. -/
def c10verify : String → String → Bool := fun p h => p == h

/-- Identity hash capability for witnesses of register/create-admin. -/
def idHash : String → String := fun p => p

/-! The mutating HTTP surface, for claim C9: every handler of routes.ts
that writes to the database (logout only destroys the session and is
not a database mutation). -/

inductive Endpoint where
  | loginE (env : AdminEnv) (verify : String → String → Bool) (username password : String)
  | registerE (hash : String → String)
      (username password confirmPassword email firstName lastName : String)
  | postBookE (callerId : String) (payload : InsertBook) (now : Nat)
  | putBookE (callerId : String) (id : Nat) (payload : UpdateBook) (now : Nat)
  | deleteBookE (callerId : String) (id : Nat)
  | postBorrowingE (callerId : String) (bookId dueDate now : Nat)
  | putReturnE (callerId : String) (id now : Nat)
  | createAdminE (hash : String → String) (callerId username password : String)
      (email firstName lastName : Option String)
  | putUserRoleE (callerId targetUserId role : String)
  | deleteUserE (callerId targetUserId : String)
  | postAnnouncementE (callerId title content : String) (now : Nat)
  | deleteNotificationE (callerId : String) (notificationId : Nat)

/-- Resulting state of one endpoint call plus its success flag (2xx). -/
def runEndpoint (db : DB) : Endpoint → DB × Bool
  | Endpoint.loginE env v u p =>
      ((loginRoute env v db u p).1, (loginRoute env v db u p).2.isOk)
  | Endpoint.registerE hash u p cp em fn ln =>
      ((registerRoute db hash u p cp em fn ln).1,
       (registerRoute db hash u p cp em fn ln).2.isOk)
  | Endpoint.postBookE c payload now =>
      ((postBook db c payload now).1, (postBook db c payload now).2.isOk)
  | Endpoint.putBookE c i payload now =>
      ((putBook db c i payload now).1, (putBook db c i payload now).2.isOk)
  | Endpoint.deleteBookE c i =>
      ((deleteBookRoute db c i).1, (deleteBookRoute db c i).2.isOk)
  | Endpoint.postBorrowingE c b d now =>
      ((postBorrowing db c b d now).1, (postBorrowing db c b d now).2.isOk)
  | Endpoint.putReturnE c i now =>
      ((putReturn db c i now).1, (putReturn db c i now).2.isOk)
  | Endpoint.createAdminE hash c u p em fn ln =>
      ((createAdminRoute db hash c u p em fn ln).1,
       (createAdminRoute db hash c u p em fn ln).2.isOk)
  | Endpoint.putUserRoleE c t role =>
      ((putUserRole db c t role).1, (putUserRole db c t role).2.isOk)
  | Endpoint.deleteUserE c t =>
      ((deleteUserRoute db c t).1, (deleteUserRoute db c t).2.isOk)
  | Endpoint.postAnnouncementE c ti co now =>
      ((postAnnouncement db c ti co now).1, (postAnnouncement db c ti co now).2.isOk)
  | Endpoint.deleteNotificationE c n =>
      ((deleteNotificationRoute db c n).1, (deleteNotificationRoute db c n).2.isOk)

/-- What the activity log must look like after a SUCCESSFUL call of the
endpoint, in the amended form of claim C9: exactly one appended entry,
except for registration and login, which mutate (user insert, admin
upsert) without logging. -/
def logsExpected (db : DB) (e : Endpoint) (db2 : DB) : Prop :=
  match e with
  | Endpoint.loginE _ _ _ _ => db2.activityLogs = db.activityLogs
  | Endpoint.registerE _ _ _ _ _ _ _ => db2.activityLogs = db.activityLogs
  | _ => appendsOneLog db db2

/-! Helper lemmas. -/

theorem charToLowerIdem (c : Char) : c.toLower.toLower = c.toLower := by
  by_cases h : c.toNat ≥ 65 ∧ c.toNat ≤ 90
  · have hvalid : (c.toNat + 32).isValidChar := Or.inl (by omega)
    have htn : (Char.ofNat (c.toNat + 32)).toNat = c.toNat + 32 := by
      rw [Char.ofNat, dif_pos hvalid]
      simp [Char.ofNatAux, Char.toNat, UInt32.toNat, BitVec.toNat_ofNatLt]
    simp only [Char.toLower, h.1, h.2, and_self, if_true]
    have hneg : ¬((Char.ofNat (c.toNat + 32)).toNat ≥ 65 ∧
        (Char.ofNat (c.toNat + 32)).toNat ≤ 90) := by
      rw [htn]; omega
    rw [if_neg hneg]
  · simp only [Char.toLower, h, if_false]

theorem stringToLowerIdem (s : String) : s.toLower.toLower = s.toLower := by
  simp only [String.toLower, String.map_eq]
  apply String.ext
  simp [List.map_map, Function.comp_def, charToLowerIdem]

theorem find_updateWhereBook (l : List Book) (i j : Nat) (f : Book → Book)
    (hf : ∀ bk, (f bk).id = bk.id) :
    (updateWhereBook l i f).find? (fun bk => bk.id == j) =
      (l.find? fun bk => bk.id == j).map fun bk => if bk.id = i then f bk else bk := by
  unfold updateWhereBook
  rw [List.find?_map]
  have hp : ((fun bk : Book => bk.id == j) ∘ fun bk => if bk.id = i then f bk else bk) =
      fun bk : Book => bk.id == j := by
    funext bk
    by_cases h : bk.id = i <;> simp [Function.comp_def, h, hf]
  rw [hp]

theorem map_proj_updateWhereBook {γ : Type} (l : List Book) (i : Nat)
    (f : Book → Book) (g : Book → γ) (hfg : ∀ bk, g (f bk) = g bk) :
    (updateWhereBook l i f).map g = l.map g := by
  unfold updateWhereBook
  rw [List.map_map]
  apply List.map_congr_left
  intro bk _
  by_cases h : bk.id = i <;> simp [Function.comp_def, h, hfg]

/-! Claim C5: error cases of createBorrowing leave the state unchanged. -/

/-- C5: POST /api/borrowings answers 404 (NotFoundError) when the book
id does not exist and 400 with the message Book is not available
(ConflictError) when availableQuantity is not positive, and in both
cases returns the state completely unchanged: no borrowing row, no
quantity change, no activity log entry; the availability check runs
before any write. -/
theorem c5_createBorrowing_error_frame (db : DB) (callerId : String)
    (bookId dueDate now : Nat) :
    (getBookById db bookId = none →
      postBorrowing db callerId bookId dueDate now =
        (db, RouteResult.err 404 "Book not found")) ∧
    (∀ bk, getBookById db bookId = some bk → bk.availableQuantity ≤ 0 →
      postBorrowing db callerId bookId dueDate now =
        (db, RouteResult.err 400 "Book is not available")) := by
  constructor
  · intro h
    unfold postBorrowing
    rw [h]
  · intro bk h hq
    unfold postBorrowing
    rw [h]
    simp [hq]

/-- C5 witness: on the concrete state with one book (id 1, zero
availability), borrowing book 2 gives 404 and borrowing book 1 gives
the availability conflict, both leaving the state untouched. -/
theorem c5_createBorrowing_error_frame_witness :
    postBorrowing c5wdb "alice" 2 9 9 = (c5wdb, RouteResult.err 404 "Book not found") ∧
    postBorrowing c5wdb "alice" 1 9 9 = (c5wdb, RouteResult.err 400 "Book is not available") :=
  ⟨(c5_createBorrowing_error_frame c5wdb "alice" 2 9 9).1 (by decide),
   (c5_createBorrowing_error_frame c5wdb "alice" 1 9 9).2
     { id := 1, title := "T1", isbn := "I1", genre := "g",
       quantity := 2, availableQuantity := 0 } (by decide) (by decide)⟩

/-! Claim C2: second return of the same borrowing. -/

/-- C2 (refuting the claim, code bug): on a borrowing that is already
returned, a second PUT /api/borrowings/1/return SUCCEEDS with 200 and
increments the availableQuantity of the book a second time, from 3 to
4, above its quantity 3.  The claim (and the specification) requires the
second call to fail and not to increment. -/
theorem c2_second_return_succeeds_and_double_increments :
    (putReturn c2db "alice" 1 9).2.isOk = true ∧
    (putReturn c2db "alice" 1 9).2.statusOf = 200 ∧
    (getBookById c2db 1).map Book.availableQuantity = some 3 ∧
    (getBookById c2db 1).map Book.quantity = some 3 ∧
    (getBookById (putReturn c2db "alice" 1 9).1 1).map Book.availableQuantity = some 4 := by
  decide

/-! Claim C6: which fields PUT /api/books/:id can change. -/

/-- C6 counterexample: the external identifier IS settable through
updateBook.  On the concrete state, a payload containing only isbn NEW
changes the stored isbn from I1 to NEW and the request succeeds, so the
claim that updateBook leaves the isbn unchanged for every payload is
false. -/
theorem c6_counterexample_isbn_settable :
    (getBookById c1db 1).map Book.isbn = some "I1" ∧
    (getBookById (putBook c1db "admin1" 1 { isbn := some "NEW" } 5).1 1).map Book.isbn
      = some "NEW" ∧
    (putBook c1db "admin1" 1 { isbn := some "NEW" } 5).2.isOk = true := by
  decide

/-- C6 (amended): updateBook never changes availableQuantity (or the
numeric id) of any book, for every caller, id and payload; the settable
fields through this path are title, author, isbn, genre, quantity and
description - including the external identifier, contrary to the
original claim. -/
theorem c6_updateBook_availableQuantity_frame (db : DB) (callerId : String)
    (id : Nat) (p : UpdateBook) (now : Nat) :
    (putBook db callerId id p now).1.books.map (fun bk => (bk.id, bk.availableQuantity))
      = db.books.map fun bk => (bk.id, bk.availableQuantity) := by
  unfold putBook
  by_cases hadmin : isAdminUser db callerId = true
  · rw [if_pos hadmin]
    cases hg : getBookById db id with
    | none =>
      simp only [updateBook, hg, Option.map_none]
      exact map_proj_updateWhereBook db.books id _ _ (fun bk => rfl)
    | some bk0 =>
      simp only [updateBook, hg, Option.map_some]
      exact map_proj_updateWhereBook db.books id _ _ (fun bk => rfl)
  · rw [if_neg hadmin]

/-! Claim C7: the status filter runs after LIMIT/OFFSET. -/

/-- C7: on the concrete catalog with two available books and limit 2,
getBooks with status available returns only ONE row (the status filter
prunes the already paginated page), even though two available books
exist, and the same query with the filter applied before pagination
(getBooksStatusFirst, the spec reading) returns a full page of two. -/
theorem c7_status_filter_after_pagination :
    (getBooks c7db c7params).1.length = 1 ∧
    c7params.limit = some 2 ∧
    (c7db.books.filter fun bk => decide (0 < bk.availableQuantity)).length = 2 ∧
    (getBooksStatusFirst c7db c7params).1.length = 2 := by
  decide

/-! Claim C1: the inventory invariant across the six operations. -/

theorem createBook_inv (db : DB) (b : InsertBook) (now : Nat)
    (hinv : dbBookInv db) (hq : (0:Int) ≤ b.quantity.getD 1) :
    dbBookInv (createBook db b now).1 := by
  have haddq : (0:Int) ≤ (match b.quantity with
      | none => (1:Int)
      | some x => if x = 0 then 1 else x) := by
    cases hb : b.quantity with
    | none => norm_num
    | some x =>
      by_cases hx : x = 0
      · simp [hx]
      · simp only [hx, if_false]
        rw [hb] at hq
        simpa using hq
  unfold createBook
  cases hb : getBookByIsbn db b.isbn with
  | some existing =>
    have hmem : existing ∈ db.books := List.mem_of_find?_eq_some hb
    obtain ⟨h1, h2⟩ := hinv existing hmem
    intro bk hbk
    simp only [updateWhereBook, List.mem_map] at hbk
    obtain ⟨bk0, hbk0, rfl⟩ := hbk
    by_cases hid : bk0.id = existing.id
    · rw [if_pos hid]
      constructor
      · exact add_nonneg h1 haddq
      · exact add_le_add_right h2 _
    · rw [if_neg hid]
      exact hinv bk0 hbk0
  | none =>
    intro bk hbk
    simp only [List.mem_append, List.mem_singleton] at hbk
    rcases hbk with hbk | rfl
    · exact hinv bk hbk
    · exact ⟨hq, le_refl _⟩

/-- C1 counterexample: starting from a state satisfying the invariant
(one book, quantity 3, availableQuantity 3), the admin updateBook
operation that sets quantity to 1 produces a state violating
0 <= availableQuantity <= quantity, so the claim as stated is false. -/
theorem c1_counterexample_updateBook_breaks_invariant :
    dbBookInv c1db ∧ ¬ dbBookInv (applyOp c1db c1op) := by
  decide

/-- C1 (amended): starting from any state with distinct book ids that
satisfies the invariant, the invariant is preserved by deleteBook,
createBorrowing and markOverdue unconditionally, by addBook whenever
the requested quantity is nonnegative, by updateBook whenever the
payload does not set quantity below the current availableQuantity of
the target book, and by returnBorrowing whenever the borrowing hit
still has a copy out numerically (availableQuantity < quantity);
without these side conditions updateBook (see the counterexample) and
a repeated return (see C2) can violate the invariant. -/
theorem c1_invariant_amended (db : DB) (op : CatalogOp)
    (hnodup : (db.books.map Book.id).Nodup)
    (hinv : dbBookInv db) (hsafe : opSafe db op) :
    dbBookInv (applyOp db op) := by
  cases op with
  | addBookOp c p now =>
    simp only [applyOp, postBook]
    by_cases hadmin : isAdminUser db c = true
    · rw [if_pos hadmin]
      have h := createBook_inv db p now hinv hsafe
      intro bk hbk
      exact h bk hbk
    · rw [if_neg hadmin]
      exact hinv
  | updateBookOp c i p now =>
    simp only [applyOp, putBook]
    by_cases hadmin : isAdminUser db c = true
    · rw [if_pos hadmin]
      have hmain : dbBookInv { db with
          books := updateWhereBook db.books i fun bk => applyBookUpdate bk p now } := by
        intro bk hbk
        simp only [updateWhereBook, List.mem_map] at hbk
        obtain ⟨bk0, hbk0, rfl⟩ := hbk
        by_cases hid : bk0.id = i
        · rw [if_pos hid]
          exact ⟨(hinv bk0 hbk0).1, hsafe bk0 hbk0 hid⟩
        · rw [if_neg hid]
          exact hinv bk0 hbk0
      cases hg : getBookById db i with
      | none =>
        simp only [updateBook, hg, Option.map_none]
        exact hmain
      | some bk0 =>
        simp only [updateBook, hg, Option.map_some]
        intro bk hbk
        exact hmain bk hbk
    · rw [if_neg hadmin]
      exact hinv
  | deleteBookOp c i =>
    simp only [applyOp, deleteBookRoute]
    by_cases hadmin : isAdminUser db c = true
    · rw [if_pos hadmin]
      cases hg : getBookById db i with
      | none => exact hinv
      | some bk0 =>
        intro bk hbk
        have hbk2 : bk ∈ db.books.filter (fun x => x.id != i) := hbk
        exact hinv bk (List.mem_of_mem_filter hbk2)
    · rw [if_neg hadmin]
      exact hinv
  | createBorrowingOp c b d now =>
    simp only [applyOp, postBorrowing]
    cases hg : getBookById db b with
    | none => exact hinv
    | some book =>
      dsimp only
      by_cases hq : book.availableQuantity ≤ 0
      · rw [if_pos hq]
        exact hinv
      · rw [if_neg hq]
        have hbmem : book ∈ db.books := List.mem_of_find?_eq_some hg
        have hbid : book.id = b := by simpa using List.find?_some hg
        intro bk hbk
        have hbk2 : bk ∈ updateWhereBook db.books b
            (fun x => { x with
              availableQuantity := x.availableQuantity - 1,
              updatedAt := now }) := hbk
        simp only [updateWhereBook, List.mem_map] at hbk2
        obtain ⟨bk0, hbk0, rfl⟩ := hbk2
        by_cases hid : bk0.id = b
        · rw [if_pos hid]
          have hbk0eq : bk0 = book :=
            List.inj_on_of_nodup_map hnodup hbk0 hbmem (by rw [hid, hbid])
          obtain ⟨h1, h2⟩ := hinv bk0 hbk0
          rw [← hbk0eq] at hq
          constructor <;> dsimp only <;> omega
        · rw [if_neg hid]
          exact hinv bk0 hbk0
  | returnBorrowingOp c i now =>
    simp only [applyOp, putReturn, getBorrowingById]
    cases hg : (db.borrowings.find? fun br => br.id == i) with
    | none => exact hinv
    | some borrowing =>
      dsimp only [Option.map]
      by_cases hauth : borrowing.userId ≠ c ∧ ¬ isAdminUser db c = true
      · rw [if_pos hauth]
        exact hinv
      · rw [if_neg hauth]
        have hbrmem : borrowing ∈ db.borrowings := List.mem_of_find?_eq_some hg
        have hbrid : borrowing.id = i := by simpa using List.find?_some hg
        have hmain : dbBookInv { db with
            books := updateWhereBook db.books borrowing.bookId
              (fun x => { x with
                availableQuantity := x.availableQuantity + 1,
                updatedAt := now }) } := by
          intro bk hbk
          simp only [updateWhereBook, List.mem_map] at hbk
          obtain ⟨bk0, hbk0, rfl⟩ := hbk
          by_cases hid : bk0.id = borrowing.bookId
          · rw [if_pos hid]
            have hlt := hsafe borrowing hbrmem hbrid bk0 hbk0 hid
            obtain ⟨h1, h2⟩ := hinv bk0 hbk0
            constructor <;> dsimp only <;> omega
          · rw [if_neg hid]
            exact hinv bk0 hbk0
        simp only [updateBorrowingStatus, hg]
        cases hj : (db.books.find? fun bk => bk.id == borrowing.bookId) with
        | none =>
          intro bk hbk
          exact hmain bk hbk
        | some book =>
          intro bk hbk
          exact hmain bk hbk
  | markOverdueOp i rd now =>
    simp only [applyOp, updateBorrowingStatus]
    cases hg : (db.borrowings.find? fun br => br.id == i) with
    | none => exact hinv
    | some borrowing =>
      dsimp only
      rw [if_neg (by simp : ¬ (BorrowStatus.overdue = BorrowStatus.returned))]
      exact hinv

/-- C1 witness: the amended theorem applied to the concrete state with
one active borrowing and availableQuantity 2 < quantity 3, for the
returnBorrowing operation. -/
theorem c1_invariant_amended_witness :
    dbBookInv (applyOp c1wdb (CatalogOp.returnBorrowingOp "alice" 1 9)) :=
  c1_invariant_amended c1wdb (CatalogOp.returnBorrowingOp "alice" 1 9)
    (by decide) (by decide) (by unfold opSafe; decide)

/-! Claim C3: the upsert law of addBook. -/

/-- C3 counterexample: with n1 = 1 and n2 = 0 the two addBook calls
leave the single row for isbn X with quantity 2 and availableQuantity
2, not n1 + n2 = 1: the merge branch maps a requested quantity of 0 to
1 (JS quantity || 1), so the claim quantified over every quantity is
false. -/
theorem c3_counterexample_zero_quantity :
    (((postBook (postBook c3db "admin1" c3p1 1).1 "admin1" c3p2 2).1.books.filter
        fun bk => bk.isbn == "X").map fun bk => (bk.quantity, bk.availableQuantity))
      = [(2, 2)] ∧
    c3p1.quantity = some 1 ∧ c3p2.quantity = some 0 ∧ (2:Int) ≠ 1 + 0 := by
  decide

/-- C3 (amended): for every state whose catalog has no book with isbn X
(and fresh next id), an admin calling addBook with isbn X and quantity
n1 and then addBook with isbn X and quantity n2, with n2 nonzero,
leaves exactly one book row for X, with quantity = n1 + n2 and
availableQuantity = n1 + n2, adding exactly one row overall (the second
call updates in place); for n2 = 0 the code adds 1 instead of 0 (see
the counterexample). -/
theorem c3_upsert_amended (db : DB) (callerId : String) (p1 p2 : InsertBook)
    (X : String) (n1 n2 : Int) (now1 now2 : Nat)
    (hadmin : isAdminUser db callerId = true)
    (hfresh : ∀ bk ∈ db.books, bk.id ≠ db.nextBookId)
    (hnone : getBookByIsbn db X = none)
    (hp1 : p1.isbn = X) (hq1 : p1.quantity = some n1)
    (hp2 : p2.isbn = X) (hq2 : p2.quantity = some n2) (hn2 : n2 ≠ 0) :
    ∃ b : Book,
      ((postBook (postBook db callerId p1 now1).1 callerId p2 now2).1.books.filter
          fun bk => bk.isbn == X) = [b] ∧
      b.quantity = n1 + n2 ∧ b.availableQuantity = n1 + n2 ∧
      (postBook (postBook db callerId p1 now1).1 callerId p2 now2).1.books.length =
        db.books.length + 1 := by
  have hnone2 : db.books.find? (fun bk => bk.isbn == X) = none := hnone
  set newB : Book :=
    { id := db.nextBookId, title := p1.title, author := p1.author,
      isbn := X, genre := p1.genre, quantity := n1,
      availableQuantity := n1, description := p1.description,
      createdAt := now1, updatedAt := now1 } with hnewB
  have hcb1 : createBook db p1 now1 =
      ({ db with books := db.books ++ [newB], nextBookId := db.nextBookId + 1 },
       newB) := by
    unfold createBook
    rw [hp1, hnone]
    simp only [hq1, Option.getD_some, hnewB, hp1]
  have hpb1 : (postBook db callerId p1 now1).1 =
      addLog { db with books := db.books ++ [newB], nextBookId := db.nextBookId + 1 }
        callerId "book_added" ("Added book: " ++ newB.title)
        (some "book") (some (toString newB.id)) := by
    unfold postBook
    rw [if_pos hadmin, hcb1]
  have hbooks1 : (postBook db callerId p1 now1).1.books = db.books ++ [newB] := by
    rw [hpb1]
    rfl
  have hadmin2 : isAdminUser (postBook db callerId p1 now1).1 callerId = true := by
    rw [hpb1]
    exact hadmin
  have hfind2 : getBookByIsbn (postBook db callerId p1 now1).1 X = some newB := by
    unfold getBookByIsbn
    rw [hbooks1, List.find?_append, hnone2]
    simp [hnewB]
  set db1 : DB := (postBook db callerId p1 now1).1 with hdb1
  set mergedB : Book :=
    { newB with
      quantity := n1 + n2,
      availableQuantity := n1 + n2,
      updatedAt := now2 } with hmergedB
  have hcb2 : createBook db1 p2 now2 =
      ({ db1 with books := updateWhereBook db1.books newB.id fun _ => mergedB },
       mergedB) := by
    unfold createBook
    rw [hp2, hfind2]
    simp only [hq2, hmergedB, hnewB]
    rw [if_neg hn2]
  have hupd : updateWhereBook (db.books ++ [newB]) newB.id (fun _ => mergedB) =
      db.books ++ [mergedB] := by
    unfold updateWhereBook
    rw [List.map_append]
    have hmap : db.books.map (fun bk => if bk.id = newB.id then mergedB else bk) =
        db.books.map id := by
      apply List.map_congr_left
      intro bk hbk
      rw [if_neg]
      · rfl
      · exact fun he => hfresh bk hbk (by simpa [hnewB] using he)
    rw [hmap, List.map_id]
    simp
  have hpb2 : (postBook db1 callerId p2 now2).1.books =
      db.books ++ [mergedB] := by
    unfold postBook
    rw [if_pos hadmin2]
    show (createBook db1 p2 now2).1.books = db.books ++ [mergedB]
    rw [hcb2]
    show updateWhereBook db1.books newB.id (fun _ => mergedB) = db.books ++ [mergedB]
    rw [hbooks1]
    exact hupd
  refine ⟨mergedB, ?_, rfl, rfl, ?_⟩
  · rw [hpb2, List.filter_append]
    have hnil : db.books.filter (fun bk => bk.isbn == X) = [] :=
      List.filter_eq_nil_iff.mpr fun bk h => List.find?_eq_none.mp hnone2 bk h
    rw [hnil]
    simp [hmergedB, hnewB]
  · rw [hpb2]
    simp

/-- C3 witness: on the empty catalog with an admin, addBook isbn X
quantity 1 then quantity 2 leaves one row for X with quantity 3 and
availableQuantity 3 and exactly one row added. -/
theorem c3_upsert_amended_witness :
    ∃ b : Book,
      ((postBook (postBook c3db "admin1" c3p1 1).1 "admin1" c3pw 2).1.books.filter
          fun bk => bk.isbn == "X") = [b] ∧
      b.quantity = 1 + 2 ∧ b.availableQuantity = 1 + 2 ∧
      (postBook (postBook c3db "admin1" c3p1 1).1 "admin1" c3pw 2).1.books.length =
        c3db.books.length + 1 :=
  c3_upsert_amended c3db "admin1" c3p1 c3pw "X" 1 2 1 2 (by decide)
    (by intro bk hbk; simp [c3db] at hbk) (by decide) rfl rfl rfl rfl (by decide)

/-! Claim C4: borrow then return restores the inventory counts. -/

/-- C4: for every state with fresh borrowing id and a book with
positive availableQuantity, POST /api/borrowings on that book succeeds,
and PUT return on the created borrowing (by the borrower) succeeds and
leaves the book with exactly its previous availableQuantity and
quantity. -/
theorem c4_borrow_return_roundtrip (db : DB) (userId : String)
    (bookId dueDate now1 now2 : Nat) (bk : Book)
    (hfresh : ∀ br ∈ db.borrowings, br.id ≠ db.nextBorrowingId)
    (hbook : getBookById db bookId = some bk)
    (havail : 0 < bk.availableQuantity) :
    ∃ nb bk2,
      (postBorrowing db userId bookId dueDate now1).2 = RouteResult.ok 201 nb ∧
      (putReturn (postBorrowing db userId bookId dueDate now1).1 userId nb.id now2).2.isOk
        = true ∧
      getBookById
          (putReturn (postBorrowing db userId bookId dueDate now1).1 userId nb.id now2).1
          bookId = some bk2 ∧
      bk2.availableQuantity = bk.availableQuantity ∧
      bk2.quantity = bk.quantity := by
  have hneg : ¬ bk.availableQuantity ≤ 0 := by omega
  have hbid : bk.id = bookId := by simpa using List.find?_some hbook
  have hbook2 : db.books.find? (fun x => x.id == bookId) = some bk := hbook
  set nb : Borrowing :=
    { id := db.nextBorrowingId, userId := userId, bookId := bookId,
      borrowDate := now1, dueDate := dueDate, returnDate := none,
      status := BorrowStatus.active, createdAt := now1, updatedAt := now1 } with hnb
  set decBook : Book → Book := fun x =>
    { x with availableQuantity := x.availableQuantity - 1, updatedAt := now1 } with hdec
  have hcb : createBorrowing db { userId := userId, bookId := bookId, dueDate := dueDate } now1 =
      ({ db with
         borrowings := db.borrowings ++ [nb],
         nextBorrowingId := db.nextBorrowingId + 1,
         books := updateWhereBook db.books bookId decBook }, nb) := rfl
  have hpb : postBorrowing db userId bookId dueDate now1 =
      (addLog { db with
          borrowings := db.borrowings ++ [nb],
          nextBorrowingId := db.nextBorrowingId + 1,
          books := updateWhereBook db.books bookId decBook }
         userId "book_borrowed" ("Borrowed book: " ++ bk.title)
         (some "borrowing") (some (toString nb.id)),
       RouteResult.ok 201 nb) := by
    unfold postBorrowing
    rw [hbook]
    dsimp only
    rw [if_neg hneg, hcb]
  have hr1 : (postBorrowing db userId bookId dueDate now1).2 = RouteResult.ok 201 nb := by
    rw [hpb]
  have hA1 : (postBorrowing db userId bookId dueDate now1).1.borrowings =
      db.borrowings ++ [nb] := by
    rw [hpb]
    rfl
  have hA2 : (postBorrowing db userId bookId dueDate now1).1.books =
      updateWhereBook db.books bookId decBook := by
    rw [hpb]
    rfl
  set dbA : DB := (postBorrowing db userId bookId dueDate now1).1 with hdbA
  have hfindbr : (dbA.borrowings.find? fun br => br.id == nb.id) = some nb := by
    rw [hA1, List.find?_append]
    have h1 : db.borrowings.find? (fun br => br.id == nb.id) = none :=
      List.find?_eq_none.mpr fun br hbr => by
        simp only [hnb]
        simpa using hfresh br hbr
    rw [h1]
    simp
  have hfindbk : (dbA.books.find? fun x => x.id == bookId) = some (decBook bk) := by
    rw [hA2, find_updateWhereBook db.books bookId bookId decBook (fun x => rfl), hbook2]
    simp [hbid]
  have hnbbook : nb.bookId = bookId := by rw [hnb]
  have huser : nb.userId = userId := by rw [hnb]
  have hjoin : getBorrowingById dbA nb.id =
      some (nb, dbA.users.find? fun u => u.id == nb.userId, some (decBook bk)) := by
    unfold getBorrowingById
    rw [hfindbr]
    dsimp only [Option.map]
    rw [hfindbk]
  have hauthneg : ¬(nb.userId ≠ userId ∧ ¬ isAdminUser dbA userId = true) :=
    fun hc => hc.1 huser
  have hput : putReturn dbA userId nb.id now2 =
      (addLog { dbA with
          borrowings := dbA.borrowings.map fun br =>
            if br.id = nb.id then
              { br with
                status := BorrowStatus.returned,
                returnDate := some now2,
                updatedAt := now2 }
            else br,
          books := updateWhereBook dbA.books nb.bookId fun x =>
            { x with availableQuantity := x.availableQuantity + 1, updatedAt := now2 } }
        userId "book_returned" ("Returned book: " ++ (decBook bk).title)
        (some "borrowing") (some (toString nb.id)),
       RouteResult.ok 200
         { nb with
           status := BorrowStatus.returned,
           returnDate := some now2,
           updatedAt := now2 }) := by
    unfold putReturn
    rw [hjoin]
    dsimp only
    rw [if_neg hauthneg]
    unfold updateBorrowingStatus
    rw [hfindbr]
    dsimp only
    rw [if_pos rfl]
  refine ⟨nb, { bk with
      availableQuantity := bk.availableQuantity - 1 + 1,
      updatedAt := now2 }, hr1, ?_, ?_, ?_, rfl⟩
  · rw [hput]
    rfl
  · unfold getBookById
    rw [hput]
    show ((updateWhereBook dbA.books bookId fun x =>
        { x with availableQuantity := x.availableQuantity + 1, updatedAt := now2 }).find?
          fun x => x.id == bookId) = _
    rw [find_updateWhereBook dbA.books bookId bookId
        (fun x => { x with availableQuantity := x.availableQuantity + 1, updatedAt := now2 })
        (fun x => rfl), hfindbk]
    have hdecid : (decBook bk).id = bookId := hbid
    dsimp only [Option.map]
    rw [if_pos hdecid]
  · show bk.availableQuantity - 1 + 1 = bk.availableQuantity
    omega

/-- C4 witness: alice borrows book 1 of the concrete two-copy state and
returns it; the book ends with availableQuantity 2 and quantity 2, its
original values. -/
theorem c4_borrow_return_roundtrip_witness :
    ∃ nb bk2,
      (postBorrowing c4wdb "alice" 1 9 3).2 = RouteResult.ok 201 nb ∧
      (putReturn (postBorrowing c4wdb "alice" 1 9 3).1 "alice" nb.id 4).2.isOk = true ∧
      getBookById (putReturn (postBorrowing c4wdb "alice" 1 9 3).1 "alice" nb.id 4).1 1
        = some bk2 ∧
      bk2.availableQuantity = c4bk.availableQuantity ∧
      bk2.quantity = c4bk.quantity :=
  c4_borrow_return_roundtrip c4wdb "alice" 1 9 3 4 c4bk (by decide) (by decide) (by decide)

/-! Claim C8: protections of DELETE /api/users/:targetUserId. -/

/-- C8: deleting a user fails with the state unchanged whenever the
target equals the caller (for every caller, admin or not) and whenever
the target user record has role admin; and a successful deletion
implies the target existed, was not an admin, differed from the caller,
and exactly that user row was removed. -/
theorem c8_deleteUser_protections (db : DB) (callerId targetId : String) :
    (targetId = callerId →
      ∃ s m, deleteUserRoute db callerId targetId = (db, RouteResult.err s m)) ∧
    (∀ u, getUser db targetId = some u → u.role = Role.admin →
      ∃ s m, deleteUserRoute db callerId targetId = (db, RouteResult.err s m)) ∧
    (∀ db2 s r, deleteUserRoute db callerId targetId = (db2, RouteResult.ok s r) →
      targetId ≠ callerId ∧
      ∃ u, getUser db targetId = some u ∧ u.role ≠ Role.admin ∧
        db2.users = db.users.filter fun x => x.id != targetId) := by
  refine ⟨?_, ?_, ?_⟩
  · intro heq
    by_cases hadmin : isAdminUser db callerId = true
    · refine ⟨400, "Cannot delete your own account", ?_⟩
      unfold deleteUserRoute
      rw [if_pos hadmin, if_pos heq]
    · refine ⟨403, "Admin access required", ?_⟩
      unfold deleteUserRoute
      rw [if_neg hadmin]
  · intro u hu hrole
    by_cases hadmin : isAdminUser db callerId = true
    · by_cases hself : targetId = callerId
      · refine ⟨400, "Cannot delete your own account", ?_⟩
        unfold deleteUserRoute
        rw [if_pos hadmin, if_pos hself]
      · refine ⟨403, "Cannot delete admin accounts", ?_⟩
        unfold deleteUserRoute
        rw [if_pos hadmin, if_neg hself, hu]
        dsimp only
        rw [if_pos hrole]
    · refine ⟨403, "Admin access required", ?_⟩
      unfold deleteUserRoute
      rw [if_neg hadmin]
  · intro db2 s r h
    unfold deleteUserRoute at h
    by_cases hadmin : isAdminUser db callerId = true
    · rw [if_pos hadmin] at h
      by_cases hself : targetId = callerId
      · rw [if_pos hself] at h
        exact absurd (congrArg Prod.snd h) (by simp)
      · rw [if_neg hself] at h
        cases hu : getUser db targetId with
        | none =>
          rw [hu] at h
          exact absurd (congrArg Prod.snd h) (by simp)
        | some tu =>
          rw [hu] at h
          dsimp only at h
          by_cases hrole : tu.role = Role.admin
          · rw [if_pos hrole] at h
            exact absurd (congrArg Prod.snd h) (by simp)
          · rw [if_neg hrole] at h
            refine ⟨hself, tu, rfl, hrole, ?_⟩
            have hdb2 : db2 = addLog (deleteUser db targetId) callerId "user_deleted"
                ("Deleted user account: " ++ (tu.email.getD "null"))
                (some "user") (some targetId) := (congrArg Prod.fst h).symm
            rw [hdb2]
            rfl
    · rw [if_neg hadmin] at h
      exact absurd (congrArg Prod.snd h) (by simp)

/-- C8 witness: an admin deleting their own account fails with the
state unchanged. -/
theorem c8_deleteUser_protections_witness :
    ∃ s m, deleteUserRoute c8db "admin1" "admin1" = (c8db, RouteResult.err s m) :=
  (c8_deleteUser_protections c8db "admin1" "admin1").1 rfl

/-! Claim C9: activity logging discipline of the mutating endpoints. -/

theorem addLog_appendsOneLog (db base : DB) (uid act det : String)
    (et ei : Option String) (hbase : base.activityLogs = db.activityLogs) :
    appendsOneLog db (addLog base uid act det et ei) := by
  refine ⟨{ id := base.nextLogId, userId := uid, action := act, details := det,
            entityType := et, entityId := ei }, ?_⟩
  show base.activityLogs ++ [_] = db.activityLogs ++ [_]
  rw [hbase]

theorem createBook_activityLogs (db : DB) (b : InsertBook) (now : Nat) :
    (createBook db b now).1.activityLogs = db.activityLogs := by
  unfold createBook
  cases getBookByIsbn db b.isbn <;> rfl

theorem updateBorrowingStatus_activityLogs (db : DB) (id : Nat) (st : BorrowStatus)
    (rd : Option Nat) (now : Nat) :
    (updateBorrowingStatus db id st rd now).1.activityLogs = db.activityLogs := by
  unfold updateBorrowingStatus
  cases db.borrowings.find? (fun br => br.id == id) with
  | none => rfl
  | some borrowing =>
    dsimp only
    by_cases hst : st = BorrowStatus.returned
    · rw [if_pos hst]
    · rw [if_neg hst]

theorem upsertUser_activityLogs (db : DB) (id email fn ln : String) (role : Role) :
    (upsertUser db id email fn ln role).activityLogs = db.activityLogs := by
  unfold upsertUser
  cases db.users.find? (fun u => u.id == id) <;> rfl

theorem authenticateLocalUser_activityLogs (env : AdminEnv)
    (verify : String → String → Bool) (db : DB) (u p : String) (db1 : DB)
    (r : Option LocalUser)
    (h : authenticateLocalUser env verify db u p = Except.ok (db1, r)) :
    db1.activityLogs = db.activityLogs := by
  unfold authenticateLocalUser at h
  split at h
  · dsimp only at h
    split at h
    · simp only [Except.ok.injEq, Prod.mk.injEq] at h
      rw [← h.1]
      exact upsertUser_activityLogs db _ _ _ _ _
    · split at h
      · split at h
        · split at h
          · simp only [Except.ok.injEq, Prod.mk.injEq] at h
            rw [← h.1]
          · simp only [Except.ok.injEq, Prod.mk.injEq] at h
            rw [← h.1]
        · simp only [Except.ok.injEq, Prod.mk.injEq] at h
          rw [← h.1]
      · simp only [Except.ok.injEq, Prod.mk.injEq] at h
        rw [← h.1]
  · simp at h

theorem createLocalUserAuth_activityLogs (db : DB) (hash : String → String)
    (un pw em fn ln : String) (role : Role) (db1 : DB) (u : UserRec)
    (h : createLocalUserAuth db hash un pw em fn ln role = some (db1, u)) :
    db1.activityLogs = db.activityLogs := by
  unfold createLocalUserAuth at h
  dsimp only at h
  split at h
  · simp at h
  · simp only [Option.some.injEq] at h
    have h1 : db1 = (createLocalUserStorage db un.toLower (hash pw) em fn ln role).1 :=
      (congrArg Prod.fst h).symm
    rw [h1]
    rfl

theorem postBook_logs (db : DB) (c : String) (p : InsertBook) (now : Nat) :
    ((postBook db c p now).2.isOk = true → appendsOneLog db (postBook db c p now).1) ∧
    ((postBook db c p now).2.isOk = false →
      (postBook db c p now).1.activityLogs = db.activityLogs) := by
  unfold postBook
  by_cases hadmin : isAdminUser db c = true
  · rw [if_pos hadmin]
    exact ⟨fun _ => addLog_appendsOneLog db _ _ _ _ _ _ (createBook_activityLogs db p now),
           fun hf => by simp [RouteResult.isOk] at hf⟩
  · rw [if_neg hadmin]
    exact ⟨fun hok => by simp [RouteResult.isOk] at hok, fun _ => rfl⟩

theorem putBook_logs (db : DB) (c : String) (i : Nat) (p : UpdateBook) (now : Nat) :
    ((putBook db c i p now).2.isOk = true → appendsOneLog db (putBook db c i p now).1) ∧
    ((putBook db c i p now).2.isOk = false →
      (putBook db c i p now).1.activityLogs = db.activityLogs) := by
  unfold putBook
  by_cases hadmin : isAdminUser db c = true
  · rw [if_pos hadmin]
    cases hg : getBookById db i with
    | none =>
      simp only [updateBook, hg, Option.map_none]
      exact ⟨fun hok => by simp [RouteResult.isOk] at hok, fun _ => rfl⟩
    | some bk0 =>
      simp only [updateBook, hg, Option.map_some]
      exact ⟨fun _ => addLog_appendsOneLog db _ _ _ _ _ _ rfl,
             fun hf => by simp [RouteResult.isOk] at hf⟩
  · rw [if_neg hadmin]
    exact ⟨fun hok => by simp [RouteResult.isOk] at hok, fun _ => rfl⟩

theorem deleteBookRoute_logs (db : DB) (c : String) (i : Nat) :
    ((deleteBookRoute db c i).2.isOk = true →
      appendsOneLog db (deleteBookRoute db c i).1) ∧
    ((deleteBookRoute db c i).2.isOk = false →
      (deleteBookRoute db c i).1.activityLogs = db.activityLogs) := by
  unfold deleteBookRoute
  by_cases hadmin : isAdminUser db c = true
  · rw [if_pos hadmin]
    cases hg : getBookById db i with
    | none => exact ⟨fun hok => by simp [RouteResult.isOk] at hok, fun _ => rfl⟩
    | some bk0 =>
      exact ⟨fun _ => addLog_appendsOneLog db _ _ _ _ _ _ rfl,
             fun hf => by simp [RouteResult.isOk] at hf⟩
  · rw [if_neg hadmin]
    exact ⟨fun hok => by simp [RouteResult.isOk] at hok, fun _ => rfl⟩

theorem postBorrowing_logs (db : DB) (c : String) (b d now : Nat) :
    ((postBorrowing db c b d now).2.isOk = true →
      appendsOneLog db (postBorrowing db c b d now).1) ∧
    ((postBorrowing db c b d now).2.isOk = false →
      (postBorrowing db c b d now).1.activityLogs = db.activityLogs) := by
  unfold postBorrowing
  cases hg : getBookById db b with
  | none => exact ⟨fun hok => by simp [RouteResult.isOk] at hok, fun _ => rfl⟩
  | some book =>
    dsimp only
    by_cases hq : book.availableQuantity ≤ 0
    · rw [if_pos hq]
      exact ⟨fun hok => by simp [RouteResult.isOk] at hok, fun _ => rfl⟩
    · rw [if_neg hq]
      exact ⟨fun _ => addLog_appendsOneLog db _ _ _ _ _ _ rfl,
             fun hf => by simp [RouteResult.isOk] at hf⟩

theorem putReturn_logs (db : DB) (c : String) (i now : Nat) :
    ((putReturn db c i now).2.isOk = true → appendsOneLog db (putReturn db c i now).1) ∧
    ((putReturn db c i now).2.isOk = false →
      (putReturn db c i now).1.activityLogs = db.activityLogs) := by
  unfold putReturn getBorrowingById
  cases hg : db.borrowings.find? (fun br => br.id == i) with
  | none => exact ⟨fun hok => by simp [RouteResult.isOk] at hok, fun _ => rfl⟩
  | some borrowing =>
    dsimp only [Option.map]
    by_cases hauth : borrowing.userId ≠ c ∧ ¬ isAdminUser db c = true
    · rw [if_pos hauth]
      exact ⟨fun hok => by simp [RouteResult.isOk] at hok, fun _ => rfl⟩
    · rw [if_neg hauth]
      have hlogs1 : (updateBorrowingStatus db i BorrowStatus.returned (some now) now).1.activityLogs
          = db.activityLogs :=
        updateBorrowingStatus_activityLogs db i BorrowStatus.returned (some now) now
      cases hupd : updateBorrowingStatus db i BorrowStatus.returned (some now) now with
      | mk db1 o =>
        rw [hupd] at hlogs1
        cases o with
        | none => exact ⟨fun hok => by simp [RouteResult.isOk] at hok, fun _ => hlogs1⟩
        | some upd =>
          dsimp only
          cases hjb : db.books.find? (fun bk => bk.id == borrowing.bookId) with
          | none => exact ⟨fun hok => by simp [RouteResult.isOk] at hok, fun _ => hlogs1⟩
          | some book =>
            exact ⟨fun _ => addLog_appendsOneLog db _ _ _ _ _ _ hlogs1,
                   fun hf => by simp [RouteResult.isOk] at hf⟩

theorem createAdminRoute_logs (db : DB) (hash : String → String) (c u p : String)
    (em fn ln : Option String) :
    ((createAdminRoute db hash c u p em fn ln).2.isOk = true →
      appendsOneLog db (createAdminRoute db hash c u p em fn ln).1) ∧
    ((createAdminRoute db hash c u p em fn ln).2.isOk = false →
      (createAdminRoute db hash c u p em fn ln).1.activityLogs = db.activityLogs) := by
  unfold createAdminRoute
  by_cases hadmin : isAdminUser db c = true
  · rw [if_pos hadmin]
    by_cases hv : u = "" ∨ p = ""
    · rw [if_pos hv]
      exact ⟨fun hok => by simp [RouteResult.isOk] at hok, fun _ => rfl⟩
    · rw [if_neg hv]
      by_cases hl : p.length < 3
      · rw [if_pos hl]
        exact ⟨fun hok => by simp [RouteResult.isOk] at hok, fun _ => rfl⟩
      · rw [if_neg hl]
        cases hcr : createLocalUserAuth db hash u p (em.getD (u ++ "@admin.local"))
            (fn.getD "Admin") (ln.getD "User") Role.admin with
        | none => exact ⟨fun hok => by simp [RouteResult.isOk] at hok, fun _ => rfl⟩
        | some r =>
          cases r with
          | mk db1 au =>
            dsimp only
            have hlogs1 : db1.activityLogs = db.activityLogs :=
              createLocalUserAuth_activityLogs db hash u p _ _ _ Role.admin db1 au hcr
            exact ⟨fun _ => addLog_appendsOneLog db _ _ _ _ _ _ hlogs1,
                   fun hf => by simp [RouteResult.isOk] at hf⟩
  · rw [if_neg hadmin]
    exact ⟨fun hok => by simp [RouteResult.isOk] at hok, fun _ => rfl⟩

theorem putUserRole_logs (db : DB) (c t role : String) :
    ((putUserRole db c t role).2.isOk = true →
      appendsOneLog db (putUserRole db c t role).1) ∧
    ((putUserRole db c t role).2.isOk = false →
      (putUserRole db c t role).1.activityLogs = db.activityLogs) := by
  unfold putUserRole
  by_cases hadmin : isAdminUser db c = true
  · rw [if_pos hadmin]
    by_cases hrole : role ≠ "admin" ∧ role ≠ "user"
    · rw [if_pos hrole]
      exact ⟨fun hok => by simp [RouteResult.isOk] at hok, fun _ => rfl⟩
    · rw [if_neg hrole]
      dsimp only
      cases hg : db.users.find? (fun x => x.id == t) with
      | none =>
        simp only [updateUserRole, hg, Option.map_none]
        exact ⟨fun hok => by simp [RouteResult.isOk] at hok, fun _ => rfl⟩
      | some target =>
        simp only [updateUserRole, hg, Option.map_some]
        exact ⟨fun _ => addLog_appendsOneLog db _ _ _ _ _ _ rfl,
               fun hf => by simp [RouteResult.isOk] at hf⟩
  · rw [if_neg hadmin]
    exact ⟨fun hok => by simp [RouteResult.isOk] at hok, fun _ => rfl⟩

theorem deleteUserRoute_logs (db : DB) (c t : String) :
    ((deleteUserRoute db c t).2.isOk = true →
      appendsOneLog db (deleteUserRoute db c t).1) ∧
    ((deleteUserRoute db c t).2.isOk = false →
      (deleteUserRoute db c t).1.activityLogs = db.activityLogs) := by
  unfold deleteUserRoute
  by_cases hadmin : isAdminUser db c = true
  · rw [if_pos hadmin]
    by_cases hself : t = c
    · rw [if_pos hself]
      exact ⟨fun hok => by simp [RouteResult.isOk] at hok, fun _ => rfl⟩
    · rw [if_neg hself]
      cases hg : getUser db t with
      | none => exact ⟨fun hok => by simp [RouteResult.isOk] at hok, fun _ => rfl⟩
      | some tu =>
        dsimp only
        by_cases hrole : tu.role = Role.admin
        · rw [if_pos hrole]
          exact ⟨fun hok => by simp [RouteResult.isOk] at hok, fun _ => rfl⟩
        · rw [if_neg hrole]
          exact ⟨fun _ => addLog_appendsOneLog db _ _ _ _ _ _ rfl,
                 fun hf => by simp [RouteResult.isOk] at hf⟩
  · rw [if_neg hadmin]
    exact ⟨fun hok => by simp [RouteResult.isOk] at hok, fun _ => rfl⟩

theorem postAnnouncement_logs (db : DB) (c ti co : String) (now : Nat) :
    ((postAnnouncement db c ti co now).2.isOk = true →
      appendsOneLog db (postAnnouncement db c ti co now).1) ∧
    ((postAnnouncement db c ti co now).2.isOk = false →
      (postAnnouncement db c ti co now).1.activityLogs = db.activityLogs) := by
  unfold postAnnouncement
  by_cases hadmin : isAdminUser db c = true
  · rw [if_pos hadmin]
    exact ⟨fun _ => addLog_appendsOneLog db _ _ _ _ _ _ rfl,
           fun hf => by simp [RouteResult.isOk] at hf⟩
  · rw [if_neg hadmin]
    exact ⟨fun hok => by simp [RouteResult.isOk] at hok, fun _ => rfl⟩

theorem deleteNotificationRoute_logs (db : DB) (c : String) (n : Nat) :
    ((deleteNotificationRoute db c n).2.isOk = true →
      appendsOneLog db (deleteNotificationRoute db c n).1) ∧
    ((deleteNotificationRoute db c n).2.isOk = false →
      (deleteNotificationRoute db c n).1.activityLogs = db.activityLogs) := by
  unfold deleteNotificationRoute
  by_cases hadmin : isAdminUser db c = true
  · rw [if_pos hadmin]
    exact ⟨fun _ => addLog_appendsOneLog db _ _ _ _ _ _ rfl,
           fun hf => by simp [RouteResult.isOk] at hf⟩
  · rw [if_neg hadmin]
    exact ⟨fun hok => by simp [RouteResult.isOk] at hok, fun _ => rfl⟩

theorem registerRoute_logs (db : DB) (hash : String → String)
    (u p cp em fn ln : String) :
    (registerRoute db hash u p cp em fn ln).1.activityLogs = db.activityLogs := by
  unfold registerRoute
  split
  · rfl
  · split
    · rfl
    · split
      · rfl
      · cases hcr : createLocalUserAuth db hash u p em fn ln Role.user with
        | none => rfl
        | some r =>
          cases r with
          | mk db1 u1 =>
            exact createLocalUserAuth_activityLogs db hash u p em fn ln Role.user db1 u1 hcr

theorem loginRoute_logs (env : AdminEnv) (verify : String → String → Bool)
    (db : DB) (u p : String) :
    (loginRoute env verify db u p).1.activityLogs = db.activityLogs := by
  unfold loginRoute
  split
  · rfl
  · cases hca : authenticateLocalUser env verify db u p with
    | error msg => rfl
    | ok r =>
      cases r with
      | mk db1 o =>
        cases o with
        | none => exact authenticateLocalUser_activityLogs env verify db u p db1 none hca
        | some u1 =>
          exact authenticateLocalUser_activityLogs env verify db u p db1 (some u1) hca

/-- C9 counterexample: registration is a mutating endpoint of the HTTP
surface (it inserts a user row) and completes successfully, yet appends
NO activity log entry, so the claim covering all mutating endpoints
including registration is false. -/
theorem c9_counterexample_register_logs_nothing :
    (registerRoute c3db idHash "bob" "pwd" "pwd" "e" "f" "l").2.isOk = true ∧
    (registerRoute c3db idHash "bob" "pwd" "pwd" "e" "f" "l").1.users.length
      = c3db.users.length + 1 ∧
    (registerRoute c3db idHash "bob" "pwd" "pwd" "e" "f" "l").1.activityLogs = [] ∧
    c3db.activityLogs = [] := by
  decide

/-- C9 (amended): every mutating endpoint of the HTTP surface that
completes successfully appends exactly one ActivityLog entry (appended
after the mutation, on top of the mutated state), and a failed call
appends none - EXCEPT the two authentication endpoints: registration
(which inserts the user) and login (which may upsert the administrator
record) mutate without appending any entry. -/
theorem c9_one_log_per_successful_mutation_amended (db : DB) (e : Endpoint) :
    ((runEndpoint db e).2 = true → logsExpected db e (runEndpoint db e).1) ∧
    ((runEndpoint db e).2 = false →
      (runEndpoint db e).1.activityLogs = db.activityLogs) := by
  cases e with
  | loginE env v u p =>
    exact ⟨fun _ => loginRoute_logs env v db u p, fun _ => loginRoute_logs env v db u p⟩
  | registerE hash u p cp em fn ln =>
    exact ⟨fun _ => registerRoute_logs db hash u p cp em fn ln,
           fun _ => registerRoute_logs db hash u p cp em fn ln⟩
  | postBookE c payload now => exact postBook_logs db c payload now
  | putBookE c i payload now => exact putBook_logs db c i payload now
  | deleteBookE c i => exact deleteBookRoute_logs db c i
  | postBorrowingE c b d now => exact postBorrowing_logs db c b d now
  | putReturnE c i now => exact putReturn_logs db c i now
  | createAdminE hash c u p em fn ln => exact createAdminRoute_logs db hash c u p em fn ln
  | putUserRoleE c t role => exact putUserRole_logs db c t role
  | deleteUserE c t => exact deleteUserRoute_logs db c t
  | postAnnouncementE c ti co now => exact postAnnouncement_logs db c ti co now
  | deleteNotificationE c n => exact deleteNotificationRoute_logs db c n

/-- C9 witness: the amended theorem applied to a successful POST
/api/books on the concrete admin state appends exactly one entry. -/
theorem c9_one_log_per_successful_mutation_amended_witness :
    logsExpected c3db (Endpoint.postBookE "admin1" c3p1 7)
      (runEndpoint c3db (Endpoint.postBookE "admin1" c3p1 7)).1 :=
  (c9_one_log_per_successful_mutation_amended c3db (Endpoint.postBookE "admin1" c3p1 7)).1
    (by decide)

/-! Claim C10: the admin username with a wrong admin password falls
through to the credential store. -/

/-- C10: when the configured admin credentials exist, the supplied
username lowercases to the configured admin username but the password
differs from the admin secret, authenticateLocalUser does NOT fail on
the admin path: it falls through to the credential-store lookup, and if
that lookup (on the lowercased input) finds a stored user whose hash
verifies the supplied password, authentication succeeds with exactly
that stored user identity and role, leaving the state unchanged. -/
theorem c10_admin_password_fallthrough (env : AdminEnv)
    (verify : String → String → Bool) (db : DB) (username password au ap : String)
    (u : UserRec) (h : String)
    (hau : env.adminUsername = some au) (hap : env.adminPassword = some ap)
    (_hname : username.toLower = au.toLower) (hpw : password ≠ ap)
    (hfound : db.users.find? (fun x => x.username == some username.toLower) = some u)
    (hhash : u.hashedPassword = some h) (hverify : verify password h = true) :
    authenticateLocalUser env verify db username password =
      Except.ok (db, some
        { id := u.id, username := u.username.getD "", password := "",
          role := u.role, email := u.email.getD "",
          firstName := u.firstName.getD "", lastName := u.lastName.getD "" }) := by
  unfold authenticateLocalUser
  rw [hau, hap]
  dsimp only
  rw [if_neg (fun hc => hpw hc.2)]
  have hfound2 : getUserByUsername db username.toLower = some u := by
    unfold getUserByUsername
    rw [stringToLowerIdem]
    exact hfound
  rw [hfound2]
  dsimp only
  rw [hhash]
  dsimp only
  rw [if_pos hverify]

/-- C10 witness: with admin username Admin and secret secret, logging
in as ADMIN with the stored password of the local account whose
username is admin succeeds as that stored (non-admin) user. -/
theorem c10_admin_password_fallthrough_witness :
    authenticateLocalUser c10env c10verify c10db "ADMIN" "hashpw" =
      Except.ok (c10db, some
        { id := bobAsAdminName.id, username := bobAsAdminName.username.getD "",
          password := "", role := bobAsAdminName.role,
          email := bobAsAdminName.email.getD "",
          firstName := bobAsAdminName.firstName.getD "",
          lastName := bobAsAdminName.lastName.getD "" }) :=
  c10_admin_password_fallthrough c10env c10verify c10db "ADMIN" "hashpw" "Admin" "secret"
    bobAsAdminName "hashpw" rfl rfl
    (by
      have h1 : "ADMIN".toLower = "admin" := by
        show "ADMIN".map Char.toLower = "admin"
        rw [String.map_eq]
        decide
      have h2 : "Admin".toLower = "admin" := by
        show "Admin".map Char.toLower = "admin"
        rw [String.map_eq]
        decide
      rw [h1, h2])
    (by decide)
    (by
      have h1 : "ADMIN".toLower = "admin" := by
        show "ADMIN".map Char.toLower = "admin"
        rw [String.map_eq]
        decide
      rw [h1]
      decide)
    rfl rfl

end LibMS
